import Mathlib

/-!
Verification development for the scene versioning and content-addressable
export engine of `regenesis-scene-lab`.

The TypeScript source is shallowly embedded:
* JavaScript objects (`SceneFiles`, the `scenes` Map) become association
  lists with insert-or-replace update (`listSet`), matching JS key
  semantics (first occurrence wins on read, in-place replace on write,
  new keys appended).
* `Date` values become `Nat` parameters passed explicitly (`now`).
* Thrown `Error` values become `Except`/tagged results mirroring the
  `throw`/`catch` structure of the source.
* The external `hashV1` content hash (library `@dcl/hashing`) and the
  JavaScript `JSON.parse` runtime primitive are not part of the
  repository; they are taken as explicit function parameters
  (`hashV1 : String → String`, `parseJson : String → Option String`).
-/

namespace SceneLab

/-- Scene files: mapping from logical file path to text content
(`src/server/src/types.ts`, `SceneFiles`). Modelled as an association
list in JS object insertion order. -/
abbrev SceneFiles := List (String × String)

/-- JS object / `Map` read: value of the first entry with the given key. -/
def listGet {β : Type} : List (String × β) → String → Option β
  | [], _ => none
  | (k', v) :: rest, k => if k' = k then some v else listGet rest k

/-- JS object / `Map` write: replace the value in place when the key is
present, otherwise append the new entry. -/
def listSet {β : Type} : List (String × β) → String → β → List (String × β)
  | [], k, v => [(k, v)]
  | (k', v') :: rest, k, v =>
    if k' = k then (k, v) :: rest else (k', v') :: listSet rest k v

/-- JS `Map.delete`: remove every entry with the given key. -/
def listErase {β : Type} : List (String × β) → String → List (String × β)
  | [], _ => []
  | (k', v) :: rest, k =>
    if k' = k then listErase rest k else (k', v) :: listErase rest k

/-- JS object spread `{...a, ...b}`: entries of `b` overlaid on `a`,
values of `b` winning on shared keys, new keys of `b` appended. -/
def objMerge (a b : SceneFiles) : SceneFiles :=
  b.foldl (fun acc kv => listSet acc kv.1 kv.2) a

@[simp] theorem listGet_nil {β : Type} (k : String) :
    listGet ([] : List (String × β)) k = none := rfl

@[simp] theorem listGet_cons {β : Type} (k' : String) (v : β) (rest : List (String × β))
    (k : String) :
    listGet ((k', v) :: rest) k = if k' = k then some v else listGet rest k := rfl

theorem listGet_listSet_self {β : Type} (m : List (String × β)) (k : String) (v : β) :
    listGet (listSet m k v) k = some v := by
  induction m with
  | nil => simp [listSet]
  | cons hd tl ih =>
    obtain ⟨a, b⟩ := hd
    by_cases h : a = k
    · simp [listSet, h]
    · simp [listSet, h, ih]

theorem listGet_listSet_other {β : Type} (m : List (String × β)) (k k' : String) (v : β)
    (h : k' ≠ k) : listGet (listSet m k v) k' = listGet m k' := by
  have h' : ¬ k = k' := fun hh => h hh.symm
  induction m with
  | nil => simp [listSet, h']
  | cons hd tl ih =>
    obtain ⟨a, b⟩ := hd
    by_cases hk : a = k
    · subst hk
      simp [listSet, h']
    · by_cases hk' : a = k'
      · subst hk'
        simp [listSet, hk, h']
      · simp [listSet, hk, hk', ih]

theorem listSet_listSet {β : Type} (m : List (String × β)) (k : String) (v v' : β) :
    listSet (listSet m k v) k v' = listSet m k v' := by
  induction m with
  | nil => simp [listSet]
  | cons hd tl ih =>
    obtain ⟨a, b⟩ := hd
    by_cases h : a = k
    · simp [listSet, h]
    · simp [listSet, h, ih]

/-- Conversation role: the `'user' | 'assistant'` string union of
`ConversationMessage.role` in `types.ts`. -/
inductive Role where
  | user
  | assistant
deriving DecidableEq, Repr

/-- `ConversationMessage` from `types.ts`: one immutable history entry
with a full file-set snapshot. Timestamps are `Nat`. -/
structure ConversationMessage where
  id : String
  role : Role
  content : String
  timestamp : Nat
  filesSnapshot : SceneFiles
deriving DecidableEq, Repr

/-- `AboutResponse.configurations` from `scene-export` (ADR-110 realm
configuration). -/
structure AboutConfigurations where
  networkId : Nat
  globalScenesUrn : List String
  scenesUrn : List String
  realmName : String
deriving DecidableEq, Repr

/-- A `healthy`/`publicUrl` service record inside `AboutResponse`
(used for `content`, `lambdas` and `bff`). -/
structure AboutService where
  healthy : Bool
  publicUrl : String
deriving DecidableEq, Repr

/-- `AboutResponse.comms` from `scene-export`. -/
structure AboutComms where
  healthy : Bool
  protocol : String
  fixedAdapter : String
deriving DecidableEq, Repr

/-- `AboutResponse` from `scene-export`: the discovery record served to
the external viewer. -/
structure AboutResponse where
  healthy : Bool
  acceptingUsers : Bool
  configurations : AboutConfigurations
  content : AboutService
  comms : AboutComms
  lambdas : AboutService
  bff : AboutService
deriving DecidableEq, Repr

/-- `SceneExport` from `types.ts`: a content-addressed bundle.
`hashedFiles` is the `Map<string, Buffer>` (hash → bytes); byte buffers
of UTF-8 text are represented by the text itself (`Buffer.from` is
injective on strings). -/
structure SceneExport where
  entityId : String
  hashedFiles : List (String × String)
  about : AboutResponse
deriving DecidableEq, Repr

/-- `Scene` from `types.ts`. The TS field `export` is a Lean keyword and
is named `sceneExport` here; `builtFiles?` and `export?` become
`Option`. -/
structure Scene where
  id : String
  name : String
  files : SceneFiles
  builtFiles : Option SceneFiles
  conversation : List ConversationMessage
  sceneExport : Option SceneExport
  snapshotExports : List (String × SceneExport)
  createdAt : Nat
  updatedAt : Nat
deriving DecidableEq, Repr

/-- The `scenes` Map owned by `createSceneStorageComponent`. -/
abbrev SceneStore := List (String × Scene)

/-- Errors thrown by the scene storage component,
`throw new Error(...)` in `scene-storage`:
`sceneNotFound id` is the message `Scene <id> not found`,
`messageNotFound m s` is `Message <m> not found in scene <s>`. -/
inductive StoreError where
  | sceneNotFound (sceneId : String)
  | messageNotFound (messageId : String) (sceneId : String)
deriving DecidableEq, Repr

/-- `getScene` from `scene-storage`: `scenes.get(sceneId) || null`. -/
def getScene (st : SceneStore) (sceneId : String) : Option Scene :=
  listGet st sceneId

/-- `updateScene` from `scene-storage`: replaces `files` wholesale and
bumps `updatedAt`. It touches no other field (in particular it leaves
`builtFiles` as it was). -/
def updateScene (st : SceneStore) (sceneId : String) (files : SceneFiles)
    (now : Nat) : Except StoreError (SceneStore × Scene) :=
  match listGet st sceneId with
  | none => .error (.sceneNotFound sceneId)
  | some scene =>
    let scene' := { scene with files := files, updatedAt := now }
    .ok (listSet st sceneId scene', scene')

/-- `addConversationMessage` from `scene-storage`: appends
(`conversation.push`) and bumps `updatedAt`. -/
def addConversationMessage (st : SceneStore) (sceneId : String)
    (message : ConversationMessage) (now : Nat) :
    Except StoreError (SceneStore × Scene) :=
  match listGet st sceneId with
  | none => .error (.sceneNotFound sceneId)
  | some scene =>
    let scene' := { scene with conversation := scene.conversation ++ [message],
                               updatedAt := now }
    .ok (listSet st sceneId scene', scene')

/-- `resetConversation` from `scene-storage`: empties the conversation
and bumps `updatedAt`; all other fields untouched. -/
def resetConversation (st : SceneStore) (sceneId : String) (now : Nat) :
    Except StoreError (SceneStore × Scene) :=
  match listGet st sceneId with
  | none => .error (.sceneNotFound sceneId)
  | some scene =>
    let scene' := { scene with conversation := [], updatedAt := now }
    .ok (listSet st sceneId scene', scene')

/-- `getMessageSnapshot` from `scene-storage`: returns a copy of the
named entry's `filesSnapshot` (copying is identity in the pure model);
the store is not modified. -/
def getMessageSnapshot (st : SceneStore) (sceneId messageId : String) :
    Except StoreError SceneFiles :=
  match listGet st sceneId with
  | none => .error (.sceneNotFound sceneId)
  | some scene =>
    match scene.conversation.find? (fun msg => msg.id = messageId) with
    | none => .error (.messageNotFound messageId sceneId)
    | some message => .ok message.filesSnapshot

/-- `revertToSnapshot` from `scene-storage`: sets `files` to a copy of
the named entry's snapshot and bumps `updatedAt`. It touches no other
field (the conversation is not truncated, `builtFiles` and the cached
`export` are left as they were). -/
def revertToSnapshot (st : SceneStore) (sceneId messageId : String) (now : Nat) :
    Except StoreError (SceneStore × Scene) :=
  match listGet st sceneId with
  | none => .error (.sceneNotFound sceneId)
  | some scene =>
    match scene.conversation.find? (fun msg => msg.id = messageId) with
    | none => .error (.messageNotFound messageId sceneId)
    | some message =>
      let scene' := { scene with files := message.filesSnapshot, updatedAt := now }
      .ok (listSet st sceneId scene', scene')

/-- `deleteScene` from `scene-storage`: `scenes.delete(sceneId)`; no
lookup, no error, returns void. -/
def deleteScene (st : SceneStore) (sceneId : String) : SceneStore :=
  listErase st sceneId

/-- `listScenes` from `scene-storage`: `Array.from(scenes.values())`. -/
def listScenes (st : SceneStore) : List Scene :=
  st.map (fun kv => kv.2)

/-- `normalizeFilePath` from `scene-export`: Windows separators to
Unix, strip all leading slashes, lower-case. -/
def normalizeFilePath (filepath : String) : String :=
  String.mk
    (((filepath.toList.map (fun c => if c = '\\' then '/' else c)).dropWhile
        (fun c => c = '/')).map Char.toLower)

/-- JavaScript `a || b` on two optional strings: the left value when it
is present and truthy (non-empty), otherwise the right value. -/
def jsOr (a b : Option String) : Option String :=
  match a with
  | some s => if s = "" then b else some s
  | none => b

/-- The descriptor lookup of `exportSceneInMemory` and `buildScene`:
`files['scene.json'] || files['/scene.json']` followed by the
`if (!sceneJsonContent)` falsiness check. `none` means the subsequent
check throws the not-found error. -/
def resolveDescriptor (files : SceneFiles) : Option String :=
  match jsOr (listGet files "scene.json") (listGet files "/scene.json") with
  | none => none
  | some s => if s = "" then none else some s

/-- The entity record of `exportSceneInMemory` step 3 (the `@dcl/schemas`
`Entity` without `id`). `metadata` holds the parse result of the
descriptor; `entityType` is the TS field `type` (a Lean keyword). -/
structure EntityRecord where
  content : List (String × String)
  pointers : List String
  timestamp : Nat
  entityType : String
  metadata : String
  version : String
deriving DecidableEq, Repr

/-- One element of the serialized `content` array of the entity record,
as laid out by `JSON.stringify`. -/
def serializeContentEntry (e : String × String) : String :=
  "\x7b\"file\":\"" ++ e.1 ++ "\",\"hash\":\"" ++ e.2 ++ "\"\x7d"

/-- `JSON.stringify(entity)` from `exportSceneInMemory` step 4: field
order as in the object literal of the source. Deterministic by
construction, which is the only property of the serialization the
development relies on. -/
def serializeEntity (e : EntityRecord) : String :=
  "\x7b\"content\":[" ++ String.intercalate "," (e.content.map serializeContentEntry)
    ++ "],\"pointers\":[],\"timestamp\":" ++ toString e.timestamp
    ++ ",\"type\":\"" ++ e.entityType
    ++ "\",\"metadata\":" ++ e.metadata
    ++ ",\"version\":\"" ++ e.version ++ "\"\x7d"

/-- `createAboutResponse` from `scene-export`: discovery record with the
pointer `scenesUrn` embedding `entityId` and the `/contents/` fetch
URL derived from `baseUrl` (one trailing slash removed). -/
def createAboutResponse (sceneId entityId baseUrl : String) : AboutResponse :=
  let normalizedBaseUrl := if baseUrl.endsWith "/" then baseUrl.dropRight 1 else baseUrl
  let contentFilesUrl := normalizedBaseUrl ++ "/contents/"
  { healthy := true
    acceptingUsers := true
    configurations :=
      { networkId := 0
        globalScenesUrn := []
        scenesUrn := ["urn:decentraland:entity:" ++ entityId ++ "?=&baseUrl=" ++ contentFilesUrl]
        realmName := "scene-lab-" ++ sceneId }
    content := { healthy := true, publicUrl := "https://peer.decentraland.org/content" }
    comms := { healthy := true, protocol := "v3", fixedAdapter := "offline:offline" }
    lambdas := { healthy := true, publicUrl := "https://peer.decentraland.org/lambdas" }
    bff := { healthy := false, publicUrl := "" } }

/-- Result record of `exportSceneInMemory` (`ExportedScene` in the
source). -/
structure ExportedScene where
  entityId : String
  hashedFiles : List (String × String)
  about : AboutResponse
deriving DecidableEq, Repr

/-- The two failure modes of `exportSceneInMemory` step 2. Both surface
in the source as an `Error` whose message starts with
`Failed to parse scene.json:`; they are distinguished by the inner
message (`Error: scene.json not found in scene files` versus the
`JSON.parse` syntax error). -/
inductive ExportError where
  | missingDescriptor
  | invalidDescriptor
deriving DecidableEq, Repr

/-- Step 1 of `exportSceneInMemory`: the per-file hashing loop. Returns
the `hashedFiles` map (hash → bytes, `Map.set` semantics) and the
`contentMappings` array (normalizedPath, hash) in file order. -/
def hashFilesStep (hashV1 : String → String) (files : SceneFiles) :
    List (String × String) × List (String × String) :=
  files.foldl
    (fun acc kv =>
      (listSet acc.1 (hashV1 kv.2) kv.2,
       acc.2 ++ [(normalizeFilePath kv.1, hashV1 kv.2)]))
    ([], [])

/-- The `contentMappings` array built by step 1 in isolation. -/
def contentMappingsOf (hashV1 : String → String) (files : SceneFiles) :
    List (String × String) :=
  (hashFilesStep hashV1 files).2

/-- The content-level `hashedFiles` map built by step 1 in isolation
(before the manifest record itself is inserted). -/
def contentHashedOf (hashV1 : String → String) (files : SceneFiles) :
    List (String × String) :=
  (hashFilesStep hashV1 files).1

/-- The entity record `exportSceneInMemory` builds at step 3 for a given
timestamp and parsed metadata. -/
def entityOf (hashV1 : String → String) (now : Nat) (files : SceneFiles)
    (metadata : String) : EntityRecord :=
  { content := contentMappingsOf hashV1 files
    pointers := []
    timestamp := now
    entityType := "scene"
    metadata := metadata
    version := "v3" }

/-- `exportSceneInMemory` from `scene-export`. `hashV1` is the external
`@dcl/hashing` content hash and `parseJson` the JavaScript `JSON.parse`
(`none` = throws); `now` is `Date.now()`. Hash every file, require a
parsable descriptor, build and hash the entity record, store it under
its own hash, and build the about record. -/
def exportSceneInMemory (hashV1 : String → String)
    (parseJson : String → Option String) (now : Nat) (sceneId : String)
    (files : SceneFiles) (baseUrl : String) : Except ExportError ExportedScene :=
  match resolveDescriptor files with
  | none => .error .missingDescriptor
  | some sceneJsonContent =>
    match parseJson sceneJsonContent with
    | none => .error .invalidDescriptor
    | some sceneMetadata =>
      let entity := entityOf hashV1 now files sceneMetadata
      let entityBuffer := serializeEntity entity
      let entityId := hashV1 entityBuffer
      .ok
        { entityId := entityId
          hashedFiles := listSet (contentHashedOf hashV1 files) entityId entityBuffer
          about := createAboutResponse sceneId entityId baseUrl }

/-- `BuildResult` from `scene-build.ts`. -/
structure BuildResult where
  success : Bool
  builtFiles : SceneFiles
  stdout : String
  stderr : String
deriving DecidableEq, Repr

/-- Outcomes of the external effects performed by `buildScene`
(`scene-build.ts`): temp-dir creation, the shared `node_modules` path
held by `build-workspace.ts` (`none` = `initializeBuildWorkspace` was
never called), the `fs.symlink` call, the `sdkBuildScene` compiler
invocation and the read-back of `bin/index.js`. Each `Except.error`
carries the thrown message. -/
structure BuildEnv where
  mkdtempResult : Except String String
  nodeModulesPath : Option String
  symlinkResult : Except String Unit
  sdkBuildResult : Except String Unit
  readIndexJsResult : Except String String
deriving Repr

/-- `symlinkNodeModules` from `build-workspace.ts`: `getNodeModulesPath`
throws when the workspace was never initialized, otherwise the
`fs.symlink` outcome decides (`EEXIST` is already folded into a `.ok`
of the environment). -/
def symlinkNodeModules (env : BuildEnv) : Except String Unit :=
  match env.nodeModulesPath with
  | none => .error "Build workspace not initialized. Call initializeBuildWorkspace() first."
  | some _ => env.symlinkResult

/-- The single-leading-slash strip of `buildScene` steps 2 and 6
(`filepath.startsWith('/') ? filepath.slice(1) : filepath`; unlike
`normalizeFilePath` it removes at most one slash and keeps case). -/
def stripOneLeadingSlash (p : String) : String :=
  if p.startsWith "/" then p.drop 1 else p

/-- Node's `path.extname`: the substring of the basename from its last
dot, empty when the basename has no dot after its first character. -/
def extname (p : String) : String :=
  let base := ((p.toList.reverse.takeWhile (fun c => c ≠ '/')).reverse)
  match base with
  | [] => ""
  | _ :: tail =>
    if tail.contains '.' then
      String.mk ('.' :: (base.reverse.takeWhile (fun c => c ≠ '.')).reverse)
    else ""

/-- `assetExtensions` from `buildScene` step 6. -/
def assetExtensions : List String :=
  [".glb", ".gltf", ".png", ".jpg", ".jpeg", ".gif", ".mp3", ".ogg", ".wav", ".json"]

/-- Steps 5–6 of `buildScene` on success: `bin/index.js` plus the
project descriptor and every asset file (non-TypeScript, recognized
extension). -/
def collectBuiltFiles (files : SceneFiles) (indexJsContent : String) : SceneFiles :=
  files.foldl
    (fun acc kv =>
      let normalizedPath := stripOneLeadingSlash kv.1
      let ext := (extname normalizedPath).toLower
      if ext = ".ts" ∨ ext = ".tsx" then acc
      else if normalizedPath = "scene.json" then listSet acc "scene.json" kv.2
      else if assetExtensions.contains ext then listSet acc normalizedPath kv.2
      else acc)
    [("bin/index.js", indexJsContent)]

/-- The `try` body of `buildScene`: every `await` that can throw is an
`Except` bind, in source order. The message for an unparsable
descriptor stands for the `SyntaxError` message `JSON.parse` throws. -/
def buildSceneTry (env : BuildEnv) (parseJson : String → Option String)
    (files : SceneFiles) : Except String SceneFiles := do
  let _tempDir ← env.mkdtempResult
  let _ ← symlinkNodeModules env
  let sceneJsonContent ←
    match resolveDescriptor files with
    | none => Except.error "scene.json not found in files"
    | some s => Except.ok s
  let _sceneJson ←
    match parseJson sceneJsonContent with
    | none => Except.error "Unexpected token in JSON"
    | some m => Except.ok m
  let _ ← env.sdkBuildResult
  let indexJsContent ←
    match env.readIndexJsResult with
    | .error m => Except.error ("Build output not found at bin/index.js: " ++ m)
    | .ok c => Except.ok c
  return collectBuiltFiles files indexJsContent

/-- `buildScene` from `scene-build.ts`: the whole body is wrapped in a
`try`/`catch` that converts any thrown error into a tagged
`success: false` result with empty `builtFiles` and the message in
`stderr`; the `finally` cleanup swallows its own errors and does not
affect the result. `sceneId` is used for logging only. -/
def buildScene (env : BuildEnv) (parseJson : String → Option String)
    (sceneId : String) (files : SceneFiles) : BuildResult :=
  match buildSceneTry env parseJson files with
  | .ok builtFiles =>
    { success := true, builtFiles := builtFiles,
      stdout := "Build completed successfully", stderr := "" }
  | .error m =>
    { success := false, builtFiles := [], stdout := "", stderr := m }

/-- JavaScript `String.prototype.trim` (used by the handler's
`!prompt.trim()` validation): strip leading and trailing whitespace. -/
def jsTrim (s : String) : String :=
  String.mk (((s.toList.dropWhile Char.isWhitespace).reverse.dropWhile
    Char.isWhitespace).reverse)

/-- `MAX_BUILD_RETRIES` from `ai-prompt` handler: 2 retries, up to 3
total attempts. -/
def MAX_BUILD_RETRIES : Nat := 2

/-- Output of `aiService.generateSceneModification`: possibly partial
file changes plus an explanation. -/
structure AiResult where
  files : SceneFiles
  explanation : String
deriving DecidableEq, Repr

/-- The collaborator contract: a function of the current prompt, the
scene's current files and its conversation history. -/
abbrev AiService := String → SceneFiles → List ConversationMessage → AiResult

/-- The augmented retry prompt built by the `ai-prompt` handler after a
failed build attempt: embeds the diagnostic text and the original
request. -/
def retryPrompt (buildError originalPrompt : String) : String :=
  "The previous changes caused TypeScript build errors. Please fix them.\n\nBuild errors:\n"
    ++ buildError
    ++ "\n\nOriginal request: " ++ originalPrompt
    ++ "\n\nPlease fix ONLY the TypeScript errors while keeping the original intent of the changes."

/-- The warning appended to the assistant conversation entry when the
handler commits after exhausting its retries. -/
def assistantBuildWarning : String :=
  "\n\n⚠️ Warning: The changes have TypeScript errors and may not build correctly."

/-- The warning appended to the response explanation when the handler
commits after exhausting its retries. -/
def responseBuildWarning (retryCount : Nat) : String :=
  "\n\n⚠️ Warning: Build failed after " ++ toString retryCount
    ++ " retries. The code has TypeScript errors."

/-- The HTTP response body of the `ai-prompt` handler, restricted to the
fields the specification talks about. For non-200 statuses
`explanation` holds the `error` field of the response body. -/
structure PromptResponse where
  status : Nat
  explanation : String
  buildRetries : Nat
  buildFailed : Bool
  buildError : Option String
deriving DecidableEq, Repr

/-- One terminal commit of the `ai-prompt` handler: append the user
entry, append the assistant entry, commit `mergedFiles` via
`updateScene` and then write `builtFiles` on the stored scene object
(the handler mutates the very object held by the store). -/
def commitPair (st : SceneStore) (sceneId : String)
    (userMessage assistantMessage : ConversationMessage)
    (mergedFiles : SceneFiles) (builtFiles : Option SceneFiles) (now : Nat) :
    Except StoreError SceneStore := do
  let r1 ← addConversationMessage st sceneId userMessage now
  let r2 ← addConversationMessage r1.1 sceneId assistantMessage now
  let r3 ← updateScene r2.1 sceneId mergedFiles now
  return listSet r3.1 sceneId { r3.2 with builtFiles := builtFiles }

/-- The `while (retryCount <= MAX_BUILD_RETRIES)` loop of the
`ai-prompt` handler. `scene` is the object fetched once before the
loop (its `files` and `conversation` are read on every attempt and are
not mutated until a terminal commit); `prompt` is the original user
prompt, `currentPrompt` the possibly augmented one. Message ids are
derived from `now` (standing for `Date.now()` plus the random
suffix). -/
def aiPromptLoop (ai : AiService) (build : SceneFiles → BuildResult)
    (st : SceneStore) (sceneId prompt : String) (scene : Scene) (now : Nat)
    (currentPrompt : String) (retryCount : Nat) :
    Except StoreError (SceneStore × PromptResponse) :=
  if retryCount ≤ MAX_BUILD_RETRIES then
    let result := ai currentPrompt scene.files scene.conversation
    let mergedFiles := objMerge scene.files result.files
    let buildResult := build mergedFiles
    if buildResult.success then
      let userMessage : ConversationMessage :=
        { id := "msg_" ++ toString now, role := .user, content := prompt,
          timestamp := now, filesSnapshot := scene.files }
      let assistantMessage : ConversationMessage :=
        { id := "msg_" ++ toString (now + 1), role := .assistant,
          content := result.explanation, timestamp := now,
          filesSnapshot := mergedFiles }
      match commitPair st sceneId userMessage assistantMessage mergedFiles
          (some buildResult.builtFiles) now with
      | .error e => .error e
      | .ok st' =>
        .ok (st',
          { status := 200, explanation := result.explanation,
            buildRetries := retryCount, buildFailed := false, buildError := none })
    else
      if h : retryCount < MAX_BUILD_RETRIES then
        aiPromptLoop ai build st sceneId prompt scene now
          (retryPrompt buildResult.stderr prompt) (retryCount + 1)
      else
        let userMessage : ConversationMessage :=
          { id := "msg_" ++ toString now, role := .user, content := prompt,
            timestamp := now, filesSnapshot := scene.files }
        let assistantMessage : ConversationMessage :=
          { id := "msg_" ++ toString (now + 1), role := .assistant,
            content := result.explanation ++ assistantBuildWarning,
            timestamp := now, filesSnapshot := mergedFiles }
        match commitPair st sceneId userMessage assistantMessage mergedFiles
            none now with
        | .error e => .error e
        | .ok st' =>
          .ok (st',
            { status := 200,
              explanation := result.explanation ++ responseBuildWarning retryCount,
              buildRetries := retryCount, buildFailed := true,
              buildError := some buildResult.stderr })
  else
    .ok (st,
      { status := 500, explanation := "Unexpected error in build retry loop",
        buildRetries := retryCount, buildFailed := false, buildError := none })
termination_by MAX_BUILD_RETRIES + 1 - retryCount
decreasing_by simp [MAX_BUILD_RETRIES] at *; omega

/-- `aiPromptHandler` from the `ai-prompt` handler file: validate the
prompt, fetch the scene, run the retry loop from `retryCount = 0`; a
store error escaping the loop is caught and becomes a 500. The
non-blocking `exportScene` trigger after a successful commit is not
modelled (it only refreshes the cached export). -/
def aiPromptHandler (ai : AiService) (build : SceneFiles → BuildResult)
    (st : SceneStore) (sceneId prompt : String) (now : Nat) :
    SceneStore × PromptResponse :=
  if jsTrim prompt = "" then
    (st, { status := 400, explanation := "Prompt is required",
           buildRetries := 0, buildFailed := false, buildError := none })
  else
    match getScene st sceneId with
    | none =>
      (st, { status := 404, explanation := "Scene not found",
             buildRetries := 0, buildFailed := false, buildError := none })
    | some scene =>
      match aiPromptLoop ai build st sceneId prompt scene now prompt 0 with
      | .ok r => r
      | .error _ =>
        (st, { status := 500, explanation := "AI prompt failed",
               buildRetries := 0, buildFailed := false, buildError := none })

/-- The deterministic attempt chain of one handler run: attempt `n`'s
prompt and merged file set, as produced by the loop when the first `n`
builds fail (attempt 0 uses the original prompt; attempt `n + 1` uses
the retry prompt built from attempt `n`'s diagnostic). -/
def attemptState (ai : AiService) (build : SceneFiles → BuildResult)
    (scene : Scene) (prompt : String) : Nat → String × SceneFiles
  | 0 => (prompt, objMerge scene.files (ai prompt scene.files scene.conversation).files)
  | n + 1 =>
    let prev := attemptState ai build scene prompt n
    let p := retryPrompt (build prev.2).stderr prompt
    (p, objMerge scene.files (ai p scene.files scene.conversation).files)

/-- The merged file set the loop submits to the build on attempt `n`. -/
def mergedAt (ai : AiService) (build : SceneFiles → BuildResult)
    (scene : Scene) (prompt : String) (n : Nat) : SceneFiles :=
  (attemptState ai build scene prompt n).2

/-- Number of conversation entries with the given role. -/
def countRole (l : List ConversationMessage) (r : Role) : Nat :=
  (l.filter (fun m => m.role = r)).length

theorem listGet_listErase_self {β : Type} (m : List (String × β)) (k : String) :
    listGet (listErase m k) k = none := by
  induction m with
  | nil => simp [listErase]
  | cons hd tl ih =>
    obtain ⟨a, b⟩ := hd
    by_cases h : a = k
    · simp [listErase, h, ih]
    · simp [listErase, h, ih]

theorem listGet_listErase_other {β : Type} (m : List (String × β)) (k k' : String)
    (h : k' ≠ k) : listGet (listErase m k) k' = listGet m k' := by
  have h' : ¬ k = k' := fun hh => h hh.symm
  induction m with
  | nil => simp [listErase]
  | cons hd tl ih =>
    obtain ⟨a, b⟩ := hd
    by_cases hk : a = k
    · subst hk
      simp [listErase, h', ih]
    · simp [listErase, hk, ih]

theorem listErase_of_not_mem {β : Type} (m : List (String × β)) (k : String)
    (h : listGet m k = none) : listErase m k = m := by
  induction m with
  | nil => simp [listErase]
  | cons hd tl ih =>
    obtain ⟨a, b⟩ := hd
    by_cases hk : a = k
    · simp [hk] at h
    · simp [hk] at h
      simp [listErase, hk, ih h]

/-- Sample conversation entry used by concrete witnesses. -/
def exMsg : ConversationMessage :=
  { id := "m1", role := .user, content := "make a cube",
    timestamp := 1, filesSnapshot := [("scene.json", "\x7b\x7d"), ("src/index.ts", "old")] }

/-- Sample built-output file set used by concrete witnesses. -/
def exBuilt : SceneFiles := [("bin/index.js", "compiled")]

/-- Sample cached export used by concrete witnesses. -/
def exExport : SceneExport :=
  { entityId := "E", hashedFiles := [("E", "entity-bytes")],
    about := createAboutResponse "s1" "E" "http://localhost:3001/scenes/s1" }

/-- Sample scene (with a successful build and a cached export) used by
concrete witnesses. -/
def exScene : Scene :=
  { id := "s1", name := "demo",
    files := [("scene.json", "\x7b\x7d"), ("src/index.ts", "new")],
    builtFiles := some exBuilt,
    conversation := [exMsg],
    sceneExport := some exExport,
    snapshotExports := [],
    createdAt := 0, updatedAt := 0 }

/-- Sample store holding `exScene` under id `s1`. -/
def exStore : SceneStore := [("s1", exScene)]

/-- Sample replacement file set for update operations. -/
def exNewFiles : SceneFiles := [("scene.json", "\x7b\x7d"), ("src/index.ts", "v2")]

/-- C1 (amended): `updateScene` replaces `files` wholesale (not merged)
so that the stored scene's `files` equals the argument, bumps
`updatedAt`, and leaves every other field — in particular `builtFiles`
— unchanged; other scenes are untouched; an absent scene id fails with
`SceneNotFound` (and, the result being an error, no scene changes). -/
theorem updateScene_replaces_files_keeps_builtFiles :
    ∀ (st : SceneStore) (sceneId : String) (files : SceneFiles) (now : Nat),
      (∀ scene, getScene st sceneId = some scene →
        ∃ st' scene', updateScene st sceneId files now = .ok (st', scene') ∧
          getScene st' sceneId = some scene' ∧
          scene'.files = files ∧
          scene'.builtFiles = scene.builtFiles ∧
          scene'.conversation = scene.conversation ∧
          scene'.sceneExport = scene.sceneExport ∧
          scene'.updatedAt = now ∧
          (∀ k, k ≠ sceneId → getScene st' k = getScene st k)) ∧
      (getScene st sceneId = none →
        updateScene st sceneId files now = .error (.sceneNotFound sceneId)) := by
  intro st sceneId files now
  refine ⟨fun scene h => ?_, fun h => ?_⟩
  · have h' : listGet st sceneId = some scene := h
    refine ⟨listSet st sceneId { scene with files := files, updatedAt := now },
            { scene with files := files, updatedAt := now },
            ?_, ?_, rfl, rfl, rfl, rfl, rfl, ?_⟩
    · simp [updateScene, h']
    · exact listGet_listSet_self st sceneId _
    · intro k hk
      exact listGet_listSet_other st sceneId k _ hk
  · have h' : listGet st sceneId = none := h
    simp [updateScene, h']

/-- C1 witness: the amended theorem applied to the sample store, both
for the existing scene `s1` and for an absent id. -/
theorem updateScene_replaces_files_keeps_builtFiles_witness :
    (∃ st' scene', updateScene exStore "s1" exNewFiles 5 = .ok (st', scene') ∧
      getScene st' "s1" = some scene' ∧
      scene'.files = exNewFiles ∧
      scene'.builtFiles = exScene.builtFiles ∧
      scene'.conversation = exScene.conversation ∧
      scene'.sceneExport = exScene.sceneExport ∧
      scene'.updatedAt = 5 ∧
      (∀ k, k ≠ "s1" → getScene st' k = getScene exStore k)) ∧
    updateScene exStore "absent" exNewFiles 5 = .error (.sceneNotFound "absent") :=
  ⟨(updateScene_replaces_files_keeps_builtFiles exStore "s1" exNewFiles 5).1 exScene rfl,
   (updateScene_replaces_files_keeps_builtFiles exStore "absent" exNewFiles 5).2 rfl⟩

/-- C1 counterexample: on the sample store the scene has
`builtFiles = some exBuilt`; after `updateScene` the stored scene still
has `builtFiles = some exBuilt`, not `none` — `updateScene` does not
clear `builtFiles` as the claim states. -/
theorem updateScene_counterexample :
    ((updateScene exStore "s1" exNewFiles 5).toOption.bind
        (fun r => (getScene r.1 "s1").map Scene.builtFiles)) = some (some exBuilt) ∧
    (some exBuilt : Option SceneFiles) ≠ none := by
  refine ⟨rfl, by decide⟩

/-- C2 (amended): for an entry id present in the conversation,
`revertToSnapshot` sets `files` to the entry's snapshot and bumps
`updatedAt`; the conversation is exactly preserved (not truncated) and
`builtFiles` and the cached `export` are left unchanged (not cleared);
an absent entry id fails with `EntryNotFound`. -/
theorem revertToSnapshot_restores_files_preserves_history :
    ∀ (st : SceneStore) (sceneId messageId : String) (now : Nat),
      (∀ scene message, getScene st sceneId = some scene →
        scene.conversation.find? (fun m => m.id = messageId) = some message →
        ∃ st' scene', revertToSnapshot st sceneId messageId now = .ok (st', scene') ∧
          getScene st' sceneId = some scene' ∧
          scene'.files = message.filesSnapshot ∧
          scene'.conversation = scene.conversation ∧
          scene'.builtFiles = scene.builtFiles ∧
          scene'.sceneExport = scene.sceneExport ∧
          scene'.updatedAt = now) ∧
      (∀ scene, getScene st sceneId = some scene →
        scene.conversation.find? (fun m => m.id = messageId) = none →
        revertToSnapshot st sceneId messageId now =
          .error (.messageNotFound messageId sceneId)) := by
  intro st sceneId messageId now
  refine ⟨fun scene message h hm => ?_, fun scene h hm => ?_⟩
  · have h' : listGet st sceneId = some scene := h
    refine ⟨listSet st sceneId { scene with files := message.filesSnapshot, updatedAt := now },
            { scene with files := message.filesSnapshot, updatedAt := now },
            ?_, ?_, rfl, rfl, rfl, rfl, rfl⟩
    · simp [revertToSnapshot, h', hm]
    · exact listGet_listSet_self st sceneId _
  · have h' : listGet st sceneId = some scene := h
    simp [revertToSnapshot, h', hm]

/-- C2 witness: the amended theorem applied to the sample store, for the
existing entry `m1` and for an absent entry id. -/
theorem revertToSnapshot_restores_files_preserves_history_witness :
    (∃ st' scene', revertToSnapshot exStore "s1" "m1" 7 = .ok (st', scene') ∧
      getScene st' "s1" = some scene' ∧
      scene'.files = exMsg.filesSnapshot ∧
      scene'.conversation = exScene.conversation ∧
      scene'.builtFiles = exScene.builtFiles ∧
      scene'.sceneExport = exScene.sceneExport ∧
      scene'.updatedAt = 7) ∧
    revertToSnapshot exStore "s1" "nope" 7 = .error (.messageNotFound "nope" "s1") :=
  ⟨(revertToSnapshot_restores_files_preserves_history exStore "s1" "m1" 7).1 exScene exMsg
      rfl (by decide),
   (revertToSnapshot_restores_files_preserves_history exStore "s1" "nope" 7).2 exScene
      rfl (by decide)⟩

/-- C2 counterexample: reverting the sample scene to entry `m1` leaves
`builtFiles = some exBuilt` and the cached export in place — the claim
states both are cleared, but `revertToSnapshot` clears neither. -/
theorem revertToSnapshot_counterexample :
    ((revertToSnapshot exStore "s1" "m1" 7).toOption.bind
        (fun r => (getScene r.1 "s1").map Scene.builtFiles)) = some (some exBuilt) ∧
    ((revertToSnapshot exStore "s1" "m1" 7).toOption.bind
        (fun r => (getScene r.1 "s1").map Scene.sceneExport)) = some (some exExport) ∧
    (some exBuilt : Option SceneFiles) ≠ none := by
  refine ⟨rfl, rfl, by decide⟩

/-- C7: `resetConversation` empties the conversation sequence and leaves
`files`, `builtFiles`, the cached export and the snapshot exports
unchanged; afterwards `getMessageSnapshot` fails with `EntryNotFound`
for every entry id. -/
theorem resetConversation_clears_history_only :
    ∀ (st : SceneStore) (sceneId : String) (now : Nat) (scene : Scene),
      getScene st sceneId = some scene →
      ∃ st' scene', resetConversation st sceneId now = .ok (st', scene') ∧
        getScene st' sceneId = some scene' ∧
        scene'.conversation = [] ∧
        scene'.files = scene.files ∧
        scene'.builtFiles = scene.builtFiles ∧
        scene'.sceneExport = scene.sceneExport ∧
        scene'.snapshotExports = scene.snapshotExports ∧
        (∀ messageId, getMessageSnapshot st' sceneId messageId =
          .error (.messageNotFound messageId sceneId)) := by
  intro st sceneId now scene h
  have h' : listGet st sceneId = some scene := h
  refine ⟨listSet st sceneId { scene with conversation := [], updatedAt := now },
          { scene with conversation := [], updatedAt := now },
          ?_, ?_, rfl, rfl, rfl, rfl, rfl, ?_⟩
  · simp [resetConversation, h']
  · exact listGet_listSet_self st sceneId _
  · intro messageId
    have hg : listGet (listSet st sceneId { scene with conversation := [], updatedAt := now })
        sceneId = some { scene with conversation := [], updatedAt := now } :=
      listGet_listSet_self st sceneId _
    simp [getMessageSnapshot, hg]

/-- C7 witness: the theorem applied to the sample store, with the
`EntryNotFound` consequence evaluated at the previously existing entry
id `m1`. -/
theorem resetConversation_clears_history_only_witness :
    ∃ st' scene', resetConversation exStore "s1" 9 = .ok (st', scene') ∧
      getScene st' "s1" = some scene' ∧
      scene'.conversation = [] ∧
      scene'.files = exScene.files ∧
      scene'.builtFiles = exScene.builtFiles ∧
      scene'.sceneExport = exScene.sceneExport ∧
      scene'.snapshotExports = exScene.snapshotExports ∧
      (∀ messageId, getMessageSnapshot st' "s1" messageId =
        .error (.messageNotFound messageId "s1")) :=
  resetConversation_clears_history_only exStore "s1" 9 exScene rfl

/-- C10: `deleteScene` never fails (it is a total function on the
store), deleting an absent id leaves the store untouched, deleting
twice equals deleting once, and only the removed id changes. -/
theorem deleteScene_idempotent_total :
    ∀ (st : SceneStore) (sceneId : String),
      (getScene st sceneId = none → deleteScene st sceneId = st) ∧
      deleteScene (deleteScene st sceneId) sceneId = deleteScene st sceneId ∧
      getScene (deleteScene st sceneId) sceneId = none ∧
      (∀ k, k ≠ sceneId → getScene (deleteScene st sceneId) k = getScene st k) := by
  intro st sceneId
  refine ⟨fun h => listErase_of_not_mem st sceneId h, ?_, ?_, ?_⟩
  · exact listErase_of_not_mem _ sceneId (listGet_listErase_self st sceneId)
  · exact listGet_listErase_self st sceneId
  · intro k hk
    exact listGet_listErase_other st sceneId k hk

/-- C10 witness: deleting the absent id `ghost` twice from the sample
store, and checking the surviving scene `s1` is untouched. -/
theorem deleteScene_idempotent_total_witness :
    deleteScene exStore "ghost" = exStore ∧
    deleteScene (deleteScene exStore "ghost") "ghost" = deleteScene exStore "ghost" ∧
    getScene (deleteScene exStore "ghost") "ghost" = none ∧
    getScene (deleteScene exStore "ghost") "s1" = getScene exStore "s1" :=
  ⟨(deleteScene_idempotent_total exStore "ghost").1 rfl,
   (deleteScene_idempotent_total exStore "ghost").2.1,
   (deleteScene_idempotent_total exStore "ghost").2.2.1,
   (deleteScene_idempotent_total exStore "ghost").2.2.2 "s1" (by decide)⟩

/-- A concrete deterministic (and injective) content hash used to
instantiate the external `hashV1` in witnesses. -/
def hashW : String → String := fun s => "b64-" ++ s

/-- A concrete JSON parse used to instantiate the external `JSON.parse`
in witnesses: only the empty object literal parses. -/
def parseW : String → Option String :=
  fun s => if s = "\x7b\x7d" then some s else none

/-- Sample file set with a parsable descriptor for export witnesses. -/
def exWFiles : SceneFiles :=
  [("scene.json", "\x7b\x7d"), ("/src/Index.ts", "code")]

theorem exportSceneInMemory_ok_shape (hashV1 : String → String)
    (parseJson : String → Option String) (now : Nat) (sceneId : String)
    (files : SceneFiles) (baseUrl : String) (e : ExportedScene)
    (h : exportSceneInMemory hashV1 parseJson now sceneId files baseUrl = .ok e) :
    ∃ metadata,
      (∃ s, resolveDescriptor files = some s ∧ parseJson s = some metadata) ∧
      e.entityId = hashV1 (serializeEntity (entityOf hashV1 now files metadata)) ∧
      e.hashedFiles = listSet (contentHashedOf hashV1 files) e.entityId
        (serializeEntity (entityOf hashV1 now files metadata)) ∧
      e.about = createAboutResponse sceneId e.entityId baseUrl := by
  unfold exportSceneInMemory at h
  split at h
  · cases h
  · rename_i s hs
    split at h
    · cases h
    · rename_i m hp
      cases h
      exact ⟨m, ⟨s, hs, hp⟩, rfl, rfl, rfl⟩

theorem exportSceneInMemory_ok_exists (hashV1 : String → String)
    (parseJson : String → Option String) (now : Nat) (sceneId : String)
    (files : SceneFiles) (baseUrl : String) (s m : String)
    (hs : resolveDescriptor files = some s) (hp : parseJson s = some m) :
    ∃ e, exportSceneInMemory hashV1 parseJson now sceneId files baseUrl = .ok e := by
  refine ⟨{ entityId := hashV1 (serializeEntity (entityOf hashV1 now files m)),
            hashedFiles := listSet (contentHashedOf hashV1 files)
              (hashV1 (serializeEntity (entityOf hashV1 now files m)))
              (serializeEntity (entityOf hashV1 now files m)),
            about := createAboutResponse sceneId
              (hashV1 (serializeEntity (entityOf hashV1 now files m))) baseUrl }, ?_⟩
  simp [exportSceneInMemory, hs, hp]

/-- C8 (amended): when neither `scene.json` nor `/scene.json` is
present with non-empty content the export fails with the
missing-descriptor error; when the resolved descriptor content is
non-empty but unparsable it fails with the distinct invalid-descriptor
error; when it parses the export succeeds — it never silently
defaults. (The resolution is the JavaScript truthiness chain
`files['scene.json'] || files['/scene.json']`, so a present but
empty-string descriptor counts as missing, not invalid.) -/
theorem exportSceneInMemory_descriptor_errors :
    ∀ (hashV1 : String → String) (parseJson : String → Option String)
      (now : Nat) (sceneId : String) (files : SceneFiles) (baseUrl : String),
      (resolveDescriptor files = none →
        exportSceneInMemory hashV1 parseJson now sceneId files baseUrl =
          .error .missingDescriptor) ∧
      (listGet files "scene.json" = none → listGet files "/scene.json" = none →
        exportSceneInMemory hashV1 parseJson now sceneId files baseUrl =
          .error .missingDescriptor) ∧
      (∀ s, resolveDescriptor files = some s → parseJson s = none →
        exportSceneInMemory hashV1 parseJson now sceneId files baseUrl =
          .error .invalidDescriptor) ∧
      (∀ s m, resolveDescriptor files = some s → parseJson s = some m →
        ∃ e, exportSceneInMemory hashV1 parseJson now sceneId files baseUrl = .ok e) ∧
      ExportError.missingDescriptor ≠ ExportError.invalidDescriptor := by
  intro hashV1 parseJson now sceneId files baseUrl
  refine ⟨fun h => ?_, fun h1 h2 => ?_, fun s hs hp => ?_, fun s m hs hp => ?_, by decide⟩
  · simp [exportSceneInMemory, h]
  · simp [exportSceneInMemory, resolveDescriptor, jsOr, h1, h2]
  · simp [exportSceneInMemory, hs, hp]
  · exact exportSceneInMemory_ok_exists hashV1 parseJson now sceneId files baseUrl s m hs hp

/-- C8 witness: the amended theorem applied to concrete file sets — a
set with no descriptor at all, a set whose descriptor `"x"` is
non-empty but unparsable, and a set whose descriptor parses. -/
theorem exportSceneInMemory_descriptor_errors_witness :
    exportSceneInMemory hashW parseW 0 "s1" [("a.txt", "x")] "http://x" =
      .error .missingDescriptor ∧
    exportSceneInMemory hashW parseW 0 "s1" [("scene.json", "x")] "http://x" =
      .error .invalidDescriptor ∧
    (∃ e, exportSceneInMemory hashW parseW 0 "s1" exWFiles "http://x" = .ok e) :=
  ⟨(exportSceneInMemory_descriptor_errors hashW parseW 0 "s1" [("a.txt", "x")]
      "http://x").1 rfl,
   (exportSceneInMemory_descriptor_errors hashW parseW 0 "s1" [("scene.json", "x")]
      "http://x").2.2.1 "x" rfl rfl,
   (exportSceneInMemory_descriptor_errors hashW parseW 0 "s1" exWFiles
      "http://x").2.2.2.1 "\x7b\x7d" "\x7b\x7d" rfl rfl⟩

/-- C8 counterexample: `[("scene.json", "")]` has the descriptor key
present with unparsable (empty) content, yet the export reports the
missing-descriptor failure, not the invalid-descriptor one the claim
requires — the JS truthiness check `if (!sceneJsonContent)` folds the
present-but-empty case into the not-found branch. -/
theorem exportSceneInMemory_descriptor_counterexample :
    listGet [("scene.json", "")] "scene.json" = some "" ∧
    parseW "" = none ∧
    exportSceneInMemory hashW parseW 0 "s1" [("scene.json", "")] "http://x" =
      .error .missingDescriptor ∧
    ExportError.missingDescriptor ≠ ExportError.invalidDescriptor := by
  refine ⟨rfl, rfl, rfl, by decide⟩

/-- C3: export determinism. With the `Date.now()` manifest timestamp
made an explicit input, two exports of the same file set with the same
`baseUrl` and timestamp produce identical `hashedFiles` key lists and
an identical `about.configurations` record (including the `scenesUrn`
pointer embedding `entityId` and the `/contents/` fetch URL). Two
exports at different timestamps agree on everything except the entity
record: both bundles are the timestamp-independent content map plus
one entity entry under the respective `entityId`, and both `about`
records are the same function of the respective `entityId` (realm
name, network id and global scenes list identical). -/
theorem exportSceneInMemory_deterministic :
    ∀ (hashV1 : String → String) (parseJson : String → Option String)
      (now : Nat) (sceneId : String) (files : SceneFiles) (baseUrl : String)
      (e1 e2 : ExportedScene),
      (exportSceneInMemory hashV1 parseJson now sceneId files baseUrl = .ok e1 →
       exportSceneInMemory hashV1 parseJson now sceneId files baseUrl = .ok e2 →
       e1.hashedFiles.map Prod.fst = e2.hashedFiles.map Prod.fst ∧
       e1.about.configurations = e2.about.configurations) ∧
      (∀ (t1 t2 : Nat) (f1 f2 : ExportedScene),
        exportSceneInMemory hashV1 parseJson t1 sceneId files baseUrl = .ok f1 →
        exportSceneInMemory hashV1 parseJson t2 sceneId files baseUrl = .ok f2 →
        (∃ metadata,
          f1.hashedFiles = listSet (contentHashedOf hashV1 files) f1.entityId
            (serializeEntity (entityOf hashV1 t1 files metadata)) ∧
          f2.hashedFiles = listSet (contentHashedOf hashV1 files) f2.entityId
            (serializeEntity (entityOf hashV1 t2 files metadata))) ∧
        f1.about = createAboutResponse sceneId f1.entityId baseUrl ∧
        f2.about = createAboutResponse sceneId f2.entityId baseUrl ∧
        f1.about.configurations.realmName = f2.about.configurations.realmName ∧
        f1.about.configurations.networkId = f2.about.configurations.networkId ∧
        f1.about.configurations.globalScenesUrn =
          f2.about.configurations.globalScenesUrn) := by
  intro hashV1 parseJson now sceneId files baseUrl e1 e2
  constructor
  · intro h1 h2
    rw [h1] at h2
    cases h2
    exact ⟨rfl, rfl⟩
  · intro t1 t2 f1 f2 h1 h2
    obtain ⟨m1, ⟨s1, hs1, hp1⟩, hid1, hhf1, hab1⟩ :=
      exportSceneInMemory_ok_shape hashV1 parseJson t1 sceneId files baseUrl f1 h1
    obtain ⟨m2, ⟨s2, hs2, hp2⟩, hid2, hhf2, hab2⟩ :=
      exportSceneInMemory_ok_shape hashV1 parseJson t2 sceneId files baseUrl f2 h2
    have hss : s1 = s2 := by rw [hs1] at hs2; cases hs2; rfl
    have hmm : m1 = m2 := by rw [hss] at hp1; rw [hp1] at hp2; cases hp2; rfl
    subst hmm
    exact ⟨⟨m1, hhf1, hhf2⟩, hab1, hab2,
      by rw [hab1, hab2]; simp [createAboutResponse],
      by rw [hab1, hab2]; simp [createAboutResponse],
      by rw [hab1, hab2]; simp [createAboutResponse]⟩

/-- C3 witness: the determinism theorem applied to a concrete file set,
hash function and parse function, at timestamps 3 and 3 (first part)
and 3 and 4 (second part). -/
theorem exportSceneInMemory_deterministic_witness :
    ∃ e1 e2,
      exportSceneInMemory hashW parseW 3 "s1" exWFiles "http://x" = .ok e1 ∧
      exportSceneInMemory hashW parseW 4 "s1" exWFiles "http://x" = .ok e2 ∧
      e1.about.configurations = e1.about.configurations ∧
      e1.about.configurations.realmName = e2.about.configurations.realmName := by
  obtain ⟨e1, h3⟩ := exportSceneInMemory_ok_exists hashW parseW 3 "s1" exWFiles
    "http://x" "\x7b\x7d" "\x7b\x7d" rfl rfl
  obtain ⟨e2, h4⟩ := exportSceneInMemory_ok_exists hashW parseW 4 "s1" exWFiles
    "http://x" "\x7b\x7d" "\x7b\x7d" rfl rfl
  refine ⟨e1, e2, h3, h4,
    ((exportSceneInMemory_deterministic hashW parseW 3 "s1" exWFiles "http://x"
        e1 e1).1 h3 h3).2,
    ?_⟩
  have h := (exportSceneInMemory_deterministic hashW parseW 3 "s1" exWFiles "http://x"
      e1 e1).2 3 4 e1 e2 h3 h4
  exact h.2.2.2.1

theorem mem_keys_listSet_self {β : Type} (m : List (String × β)) (k : String) (v : β) :
    k ∈ (listSet m k v).map Prod.fst := by
  induction m with
  | nil => simp [listSet]
  | cons hd tl ih =>
    obtain ⟨a, b⟩ := hd
    have hunf : listSet ((a, b) :: tl) k v =
        if a = k then (k, v) :: tl else (a, b) :: listSet tl k v := rfl
    rw [hunf]
    by_cases h : a = k
    · rw [if_pos h, List.map_cons]
      exact List.mem_cons_self k _
    · rw [if_neg h, List.map_cons]
      exact List.mem_cons_of_mem a ih

theorem mem_keys_listSet_of_mem {β : Type} (m : List (String × β)) (k x : String) (v : β)
    (h : x ∈ m.map Prod.fst) : x ∈ (listSet m k v).map Prod.fst := by
  induction m with
  | nil => simp at h
  | cons hd tl ih =>
    obtain ⟨a, b⟩ := hd
    rw [List.map_cons, List.mem_cons] at h
    have hunf : listSet ((a, b) :: tl) k v =
        if a = k then (k, v) :: tl else (a, b) :: listSet tl k v := rfl
    rw [hunf]
    by_cases hk : a = k
    · rw [if_pos hk, List.map_cons, List.mem_cons]
      rcases h with h | h
      · exact Or.inl (h.trans hk)
      · exact Or.inr h
    · rw [if_neg hk, List.map_cons, List.mem_cons]
      rcases h with h | h
      · exact Or.inl h
      · exact Or.inr (ih h)

theorem mem_keys_of_mem_listSet {β : Type} (m : List (String × β)) (k x : String) (v : β)
    (h : x ∈ (listSet m k v).map Prod.fst) : x ∈ m.map Prod.fst ∨ x = k := by
  induction m with
  | nil =>
    simp [listSet] at h
    exact Or.inr h
  | cons hd tl ih =>
    obtain ⟨a, b⟩ := hd
    have hunf : listSet ((a, b) :: tl) k v =
        if a = k then (k, v) :: tl else (a, b) :: listSet tl k v := rfl
    rw [hunf] at h
    by_cases hk : a = k
    · rw [if_pos hk, List.map_cons, List.mem_cons] at h
      rcases h with h | h
      · exact Or.inr h
      · exact Or.inl (by rw [List.map_cons, List.mem_cons]; exact Or.inr h)
    · rw [if_neg hk, List.map_cons, List.mem_cons] at h
      rcases h with h | h
      · exact Or.inl (by rw [List.map_cons, List.mem_cons]; exact Or.inl h)
      · rcases ih h with hm | hx
        · exact Or.inl (by rw [List.map_cons, List.mem_cons]; exact Or.inr hm)
        · exact Or.inr hx

theorem listSet_keys_nodup {β : Type} (m : List (String × β)) (k : String) (v : β)
    (h : (m.map Prod.fst).Nodup) : ((listSet m k v).map Prod.fst).Nodup := by
  induction m with
  | nil => simp [listSet]
  | cons hd tl ih =>
    obtain ⟨a, b⟩ := hd
    rw [List.map_cons, List.nodup_cons] at h
    by_cases hk : a = k
    · subst hk
      have hunf : listSet ((a, b) :: tl) a v = (a, v) :: tl := by
        show (if a = a then (a, v) :: tl else (a, b) :: listSet tl a v) = (a, v) :: tl
        rw [if_pos rfl]
      rw [hunf, List.map_cons, List.nodup_cons]
      exact h
    · have hunf : listSet ((a, b) :: tl) k v = (a, b) :: listSet tl k v := by
        show (if a = k then (k, v) :: tl else (a, b) :: listSet tl k v) =
          (a, b) :: listSet tl k v
        rw [if_neg hk]
      rw [hunf, List.map_cons, List.nodup_cons]
      refine ⟨?_, ih h.2⟩
      intro hx
      rcases mem_keys_of_mem_listSet tl k a v hx with hm | hxx
      · exact h.1 hm
      · exact hk hxx

theorem listGet_some_mem {β : Type} (m : List (String × β)) (k : String) (v : β)
    (h : listGet m k = some v) : (k, v) ∈ m := by
  induction m with
  | nil => simp at h
  | cons hd tl ih =>
    obtain ⟨a, b⟩ := hd
    by_cases hk : a = k
    · subst hk
      simp at h
      simp [h]
    · simp [hk] at h
      simp [ih h]

theorem one_le_countP_of_listGet {β : Type} (m : List (String × β)) (k : String) (v : β)
    (q : String × β → Bool) (h : listGet m k = some v) (hq : q (k, v) = true) :
    1 ≤ m.countP q := by
  induction m with
  | nil => simp at h
  | cons hd tl ih =>
    obtain ⟨a, b⟩ := hd
    rw [listGet_cons] at h
    by_cases hk : a = k
    · rw [if_pos hk] at h
      injection h with hbv
      have hq' : q (a, b) = true := by rw [hk, hbv]; exact hq
      simp [List.countP_cons, hq']
    · rw [if_neg hk] at h
      have := ih h
      simp [List.countP_cons]
      omega

theorem two_le_countP_of_two_keys {β : Type} (m : List (String × β)) (p1 p2 : String)
    (c1 c2 : β) (q : String × β → Bool) (hne : p1 ≠ p2)
    (h1 : listGet m p1 = some c1) (h2 : listGet m p2 = some c2)
    (hq1 : q (p1, c1) = true) (hq2 : q (p2, c2) = true) :
    2 ≤ m.countP q := by
  induction m with
  | nil => simp at h1
  | cons hd tl ih =>
    obtain ⟨a, b⟩ := hd
    rw [listGet_cons] at h1 h2
    by_cases ha1 : a = p1
    · rw [if_pos ha1] at h1
      injection h1 with hb1
      have hne2 : ¬ a = p2 := fun hh => hne (ha1.symm.trans hh)
      rw [if_neg hne2] at h2
      have hone := one_le_countP_of_listGet tl p2 c2 q h2 hq2
      have hq1' : q (a, b) = true := by rw [ha1, hb1]; exact hq1
      rw [List.countP_cons, if_pos hq1']
      omega
    · by_cases ha2 : a = p2
      · rw [if_pos ha2] at h2
        injection h2 with hb2
        rw [if_neg ha1] at h1
        have hone := one_le_countP_of_listGet tl p1 c1 q h1 hq1
        have hq2' : q (a, b) = true := by rw [ha2, hb2]; exact hq2
        rw [List.countP_cons, if_pos hq2']
        omega
      · rw [if_neg ha1] at h1
        rw [if_neg ha2] at h2
        have := ih h1 h2
        simp [List.countP_cons]
        omega

theorem hashFilesStep_snd (hashV1 : String → String) (files : SceneFiles) :
    ∀ acc : List (String × String) × List (String × String),
      (files.foldl (fun acc kv =>
          (listSet acc.1 (hashV1 kv.2) kv.2,
           acc.2 ++ [(normalizeFilePath kv.1, hashV1 kv.2)])) acc).2 =
        acc.2 ++ files.map (fun kv => (normalizeFilePath kv.1, hashV1 kv.2)) := by
  induction files with
  | nil => intro acc; simp
  | cons hd tl ih => intro acc; simp [ih]

/-- The `contentMappings` array is exactly the file list with normalized
paths and content hashes, in order. -/
theorem contentMappingsOf_eq_map (hashV1 : String → String) (files : SceneFiles) :
    contentMappingsOf hashV1 files =
      files.map (fun kv => (normalizeFilePath kv.1, hashV1 kv.2)) := by
  have := hashFilesStep_snd hashV1 files ([], [])
  simpa [contentMappingsOf, hashFilesStep] using this

theorem hashFilesStep_fst_nodup (hashV1 : String → String) (files : SceneFiles) :
    ∀ acc : List (String × String) × List (String × String),
      (acc.1.map Prod.fst).Nodup →
      (((files.foldl (fun acc kv =>
          (listSet acc.1 (hashV1 kv.2) kv.2,
           acc.2 ++ [(normalizeFilePath kv.1, hashV1 kv.2)])) acc).1).map Prod.fst).Nodup := by
  induction files with
  | nil => intro acc h; simpa using h
  | cons hd tl ih =>
    intro acc h
    exact ih _ (listSet_keys_nodup acc.1 (hashV1 hd.2) hd.2 h)

theorem hashFilesStep_fst_mem (hashV1 : String → String) (files : SceneFiles)
    (p : String) (c : String) :
    ∀ acc : List (String × String) × List (String × String),
      ((p, c) ∈ files ∨ hashV1 c ∈ acc.1.map Prod.fst) →
      hashV1 c ∈ ((files.foldl (fun acc kv =>
          (listSet acc.1 (hashV1 kv.2) kv.2,
           acc.2 ++ [(normalizeFilePath kv.1, hashV1 kv.2)])) acc).1).map Prod.fst := by
  induction files with
  | nil =>
    intro acc h
    rcases h with h | h
    · simp at h
    · simpa using h
  | cons hd tl ih =>
    intro acc h
    rcases h with h | h
    · rcases List.mem_cons.mp h with h | h
      · refine ih _ (Or.inr ?_)
        rw [show c = (p, c).2 from rfl, h]
        exact mem_keys_listSet_self acc.1 (hashV1 hd.2) hd.2
      · exact ih _ (Or.inl h)
    · exact ih _ (Or.inr (mem_keys_listSet_of_mem acc.1 (hashV1 hd.2) (hashV1 c) hd.2 h))

/-- The content-level hash map has no duplicate hash keys. -/
theorem contentHashedOf_keys_nodup (hashV1 : String → String) (files : SceneFiles) :
    ((contentHashedOf hashV1 files).map Prod.fst).Nodup :=
  hashFilesStep_fst_nodup hashV1 files ([], []) (by simp)

/-- Every stored file's hash is a key of the content-level hash map. -/
theorem mem_keys_contentHashedOf (hashV1 : String → String) (files : SceneFiles)
    (p c : String) (h : (p, c) ∈ files) :
    hashV1 c ∈ (contentHashedOf hashV1 files).map Prod.fst :=
  hashFilesStep_fst_mem hashV1 files p c ([], []) (Or.inl h)

/-- C6: two entries with identical content at two different paths hash
identically: both appear in the manifest's content mappings under their
normalized paths with the same hash, the mappings hold at least two
entries carrying that hash, yet the bundle stores the hash exactly once
(`hashedFiles` keys are duplicate-free); when the normalized paths
differ the two manifest entries are distinct pairs. The manifest record
stored under `entityId` carries exactly these content mappings. -/
theorem export_dedupes_identical_content :
    ∀ (hashV1 : String → String) (parseJson : String → Option String)
      (now : Nat) (sceneId : String) (files : SceneFiles) (baseUrl : String)
      (p1 p2 c : String) (e : ExportedScene),
      listGet files p1 = some c → listGet files p2 = some c → p1 ≠ p2 →
      exportSceneInMemory hashV1 parseJson now sceneId files baseUrl = .ok e →
      (normalizeFilePath p1, hashV1 c) ∈ contentMappingsOf hashV1 files ∧
      (normalizeFilePath p2, hashV1 c) ∈ contentMappingsOf hashV1 files ∧
      2 ≤ (contentMappingsOf hashV1 files).countP (fun q => q.2 == hashV1 c) ∧
      (e.hashedFiles.map Prod.fst).count (hashV1 c) = 1 ∧
      (∃ metadata, listGet e.hashedFiles e.entityId =
        some (serializeEntity (entityOf hashV1 now files metadata)) ∧
        (entityOf hashV1 now files metadata).content = contentMappingsOf hashV1 files) ∧
      (normalizeFilePath p1 ≠ normalizeFilePath p2 →
        (normalizeFilePath p1, hashV1 c) ≠ (normalizeFilePath p2, hashV1 c)) := by
  intro hashV1 parseJson now sceneId files baseUrl p1 p2 c e h1 h2 hne hok
  obtain ⟨m, ⟨s, hs, hp⟩, hid, hhf, hab⟩ :=
    exportSceneInMemory_ok_shape hashV1 parseJson now sceneId files baseUrl e hok
  have hmem1 : (normalizeFilePath p1, hashV1 c) ∈ contentMappingsOf hashV1 files := by
    rw [contentMappingsOf_eq_map]
    exact List.mem_map_of_mem _ (listGet_some_mem files p1 c h1)
  have hmem2 : (normalizeFilePath p2, hashV1 c) ∈ contentMappingsOf hashV1 files := by
    rw [contentMappingsOf_eq_map]
    exact List.mem_map_of_mem _ (listGet_some_mem files p2 c h2)
  refine ⟨hmem1, hmem2, ?_, ?_, ⟨m, ?_, rfl⟩, ?_⟩
  · rw [contentMappingsOf_eq_map, List.countP_map]
    exact two_le_countP_of_two_keys files p1 p2 c c _ hne h1 h2 (by simp) (by simp)
  · have hnd : ((listSet (contentHashedOf hashV1 files) e.entityId
        (serializeEntity (entityOf hashV1 now files m))).map Prod.fst).Nodup :=
      listSet_keys_nodup _ _ _ (contentHashedOf_keys_nodup hashV1 files)
    have hmem : hashV1 c ∈ (listSet (contentHashedOf hashV1 files) e.entityId
        (serializeEntity (entityOf hashV1 now files m))).map Prod.fst :=
      mem_keys_listSet_of_mem _ _ _ _
        (mem_keys_contentHashedOf hashV1 files p1 c (listGet_some_mem files p1 c h1))
    rw [hhf]
    exact List.count_eq_one_of_mem hnd hmem
  · rw [hhf]
    exact listGet_listSet_self _ _ _
  · intro hnp heq
    exact hnp (congrArg Prod.fst heq)

/-- C6 witness: a concrete file set holding the same content at
`/Models/A.glb` and `b/a.glb`, exported with the sample hash. -/
theorem export_dedupes_identical_content_witness :
    ∃ e, exportSceneInMemory hashW parseW 0 "s1"
        [("scene.json", "\x7b\x7d"), ("/Models/A.glb", "bytes"), ("b/a.glb", "bytes")]
        "http://x" = .ok e ∧
      (normalizeFilePath "/Models/A.glb", hashW "bytes") ∈
        contentMappingsOf hashW
          [("scene.json", "\x7b\x7d"), ("/Models/A.glb", "bytes"), ("b/a.glb", "bytes")] ∧
      2 ≤ (contentMappingsOf hashW
          [("scene.json", "\x7b\x7d"), ("/Models/A.glb", "bytes"), ("b/a.glb", "bytes")]).countP
          (fun q => q.2 == hashW "bytes") ∧
      (e.hashedFiles.map Prod.fst).count (hashW "bytes") = 1 := by
  obtain ⟨e, he⟩ := exportSceneInMemory_ok_exists hashW parseW 0 "s1"
    [("scene.json", "\x7b\x7d"), ("/Models/A.glb", "bytes"), ("b/a.glb", "bytes")]
    "http://x" "\x7b\x7d" "\x7b\x7d" rfl rfl
  have h := export_dedupes_identical_content hashW parseW 0 "s1"
    [("scene.json", "\x7b\x7d"), ("/Models/A.glb", "bytes"), ("b/a.glb", "bytes")]
    "http://x" "/Models/A.glb" "b/a.glb" "bytes" e rfl rfl (by decide) he
  exact ⟨e, he, h.1, h.2.2.1, h.2.2.2.1⟩

/-- C9: `buildScene` is total — its result type is `BuildResult`, never
an exception. Whenever the `try` body throws (workspace creation
failure, uninitialized shared `node_modules`, missing descriptor,
unparsable descriptor, compiler failure, missing build output), the
`catch` converts it into a tagged `success := false` result carrying
the diagnostic text in `stderr` with an empty `builtFiles` map; in
particular any unsuccessful result has empty `builtFiles`. -/
theorem buildScene_total_failure_tagged :
    ∀ (env : BuildEnv) (parseJson : String → Option String)
      (sceneId : String) (files : SceneFiles),
      (∀ m, env.mkdtempResult = .error m →
        buildScene env parseJson sceneId files =
          { success := false, builtFiles := [], stdout := "", stderr := m }) ∧
      (∀ d, env.mkdtempResult = .ok d → env.nodeModulesPath = none →
        buildScene env parseJson sceneId files =
          { success := false, builtFiles := [], stdout := "",
            stderr := "Build workspace not initialized. Call initializeBuildWorkspace() first." }) ∧
      (∀ m, buildSceneTry env parseJson files = .error m →
        buildScene env parseJson sceneId files =
          { success := false, builtFiles := [], stdout := "", stderr := m }) ∧
      ((buildScene env parseJson sceneId files).success = false →
        (buildScene env parseJson sceneId files).builtFiles = [] ∧
        (buildScene env parseJson sceneId files).stderr =
          (buildScene env parseJson sceneId files).stderr) := by
  intro env parseJson sceneId files
  have hcatch : ∀ m, buildSceneTry env parseJson files = .error m →
      buildScene env parseJson sceneId files =
        { success := false, builtFiles := [], stdout := "", stderr := m } := by
    intro m hm
    simp [buildScene, hm]
  refine ⟨fun m hm => ?_, fun d hd hn => ?_, hcatch, fun hf => ⟨?_, rfl⟩⟩
  · apply hcatch
    simp [buildSceneTry, hm, Bind.bind, Except.bind]
  · apply hcatch
    simp [buildSceneTry, hd, symlinkNodeModules, hn, Bind.bind, Except.bind]
  · revert hf
    unfold buildScene
    cases buildSceneTry env parseJson files with
    | ok bf => intro hf; cases hf
    | error m => intro _; rfl

/-- C9 witness: a concrete environment whose workspace creation fails,
and one whose shared `node_modules` set was never initialized. -/
theorem buildScene_total_failure_tagged_witness :
    buildScene
      { mkdtempResult := .error "ENOSPC: no space left on device",
        nodeModulesPath := some "/root/.dcl-scene-lab/build-workspace/node_modules",
        symlinkResult := .ok (), sdkBuildResult := .ok (),
        readIndexJsResult := .ok "js" } parseW "s1" exWFiles =
      { success := false, builtFiles := [], stdout := "",
        stderr := "ENOSPC: no space left on device" } ∧
    buildScene
      { mkdtempResult := .ok "/tmp/dcl-scene-s1-x", nodeModulesPath := none,
        symlinkResult := .ok (), sdkBuildResult := .ok (),
        readIndexJsResult := .ok "js" } parseW "s1" exWFiles =
      { success := false, builtFiles := [], stdout := "",
        stderr := "Build workspace not initialized. Call initializeBuildWorkspace() first." } :=
  ⟨(buildScene_total_failure_tagged
      { mkdtempResult := .error "ENOSPC: no space left on device",
        nodeModulesPath := some "/root/.dcl-scene-lab/build-workspace/node_modules",
        symlinkResult := .ok (), sdkBuildResult := .ok (),
        readIndexJsResult := .ok "js" } parseW "s1" exWFiles).1
      "ENOSPC: no space left on device" rfl,
   (buildScene_total_failure_tagged
      { mkdtempResult := .ok "/tmp/dcl-scene-s1-x", nodeModulesPath := none,
        symlinkResult := .ok (), sdkBuildResult := .ok (),
        readIndexJsResult := .ok "js" } parseW "s1" exWFiles).2.1
      "/tmp/dcl-scene-s1-x" rfl rfl⟩

theorem commitPair_ok (st : SceneStore) (sceneId : String) (scene : Scene)
    (u a : ConversationMessage) (mergedFiles : SceneFiles) (bf : Option SceneFiles)
    (now : Nat) (hst : listGet st sceneId = some scene) :
    commitPair st sceneId u a mergedFiles bf now =
      .ok (listSet st sceneId
        { scene with conversation := scene.conversation ++ [u, a],
                     files := mergedFiles, builtFiles := bf, updatedAt := now }) := by
  simp only [commitPair, addConversationMessage, updateScene, hst, listGet_listSet_self,
    Bind.bind, Except.bind, pure, Except.pure, listSet_listSet, List.append_assoc,
    List.cons_append, List.nil_append]

theorem aiPromptLoop_success (ai : AiService) (build : SceneFiles → BuildResult)
    (st : SceneStore) (sceneId prompt : String) (scene : Scene) (now : Nat)
    (cp : String) (rc : Nat)
    (hrc : rc ≤ MAX_BUILD_RETRIES)
    (hst : listGet st sceneId = some scene)
    (hb : (build (objMerge scene.files (ai cp scene.files scene.conversation).files)).success
      = true) :
    aiPromptLoop ai build st sceneId prompt scene now cp rc =
      .ok (listSet st sceneId
            { scene with
              conversation := scene.conversation ++
                [{ id := "msg_" ++ toString now, role := .user, content := prompt,
                   timestamp := now, filesSnapshot := scene.files },
                 { id := "msg_" ++ toString (now + 1), role := .assistant,
                   content := (ai cp scene.files scene.conversation).explanation,
                   timestamp := now,
                   filesSnapshot := objMerge scene.files
                     (ai cp scene.files scene.conversation).files }],
              files := objMerge scene.files (ai cp scene.files scene.conversation).files,
              builtFiles := some (build (objMerge scene.files
                (ai cp scene.files scene.conversation).files)).builtFiles,
              updatedAt := now },
           { status := 200,
             explanation := (ai cp scene.files scene.conversation).explanation,
             buildRetries := rc, buildFailed := false, buildError := none }) := by
  unfold aiPromptLoop
  rw [if_pos hrc]
  simp only [hb, if_true]
  rw [commitPair_ok st sceneId scene _ _ _ _ now hst]

theorem aiPromptLoop_retry (ai : AiService) (build : SceneFiles → BuildResult)
    (st : SceneStore) (sceneId prompt : String) (scene : Scene) (now : Nat)
    (cp : String) (rc : Nat)
    (hlt : rc < MAX_BUILD_RETRIES)
    (hb : (build (objMerge scene.files (ai cp scene.files scene.conversation).files)).success
      = false) :
    aiPromptLoop ai build st sceneId prompt scene now cp rc =
      aiPromptLoop ai build st sceneId prompt scene now
        (retryPrompt
          (build (objMerge scene.files (ai cp scene.files scene.conversation).files)).stderr
          prompt)
        (rc + 1) := by
  conv_lhs => rw [aiPromptLoop]
  rw [if_pos (Nat.le_of_lt hlt)]
  simp only [hb, Bool.false_eq_true, if_false]
  rw [dif_pos hlt]

theorem aiPromptLoop_exhausted (ai : AiService) (build : SceneFiles → BuildResult)
    (st : SceneStore) (sceneId prompt : String) (scene : Scene) (now : Nat)
    (cp : String) (rc : Nat)
    (hrc : rc ≤ MAX_BUILD_RETRIES) (hnlt : ¬ rc < MAX_BUILD_RETRIES)
    (hst : listGet st sceneId = some scene)
    (hb : (build (objMerge scene.files (ai cp scene.files scene.conversation).files)).success
      = false) :
    aiPromptLoop ai build st sceneId prompt scene now cp rc =
      .ok (listSet st sceneId
            { scene with
              conversation := scene.conversation ++
                [{ id := "msg_" ++ toString now, role := .user, content := prompt,
                   timestamp := now, filesSnapshot := scene.files },
                 { id := "msg_" ++ toString (now + 1), role := .assistant,
                   content := (ai cp scene.files scene.conversation).explanation
                     ++ assistantBuildWarning,
                   timestamp := now,
                   filesSnapshot := objMerge scene.files
                     (ai cp scene.files scene.conversation).files }],
              files := objMerge scene.files (ai cp scene.files scene.conversation).files,
              builtFiles := none,
              updatedAt := now },
           { status := 200,
             explanation := (ai cp scene.files scene.conversation).explanation
               ++ responseBuildWarning rc,
             buildRetries := rc, buildFailed := true,
             buildError := some (build (objMerge scene.files
               (ai cp scene.files scene.conversation).files)).stderr }) := by
  unfold aiPromptLoop
  rw [if_pos hrc]
  simp only [hb, Bool.false_eq_true, if_false]
  rw [dif_neg hnlt]
  rw [commitPair_ok st sceneId scene _ _ _ _ now hst]

theorem mergedAt_zero (ai : AiService) (build : SceneFiles → BuildResult)
    (scene : Scene) (prompt : String) :
    mergedAt ai build scene prompt 0 =
      objMerge scene.files (ai prompt scene.files scene.conversation).files := rfl

theorem promptAt_one (ai : AiService) (build : SceneFiles → BuildResult)
    (scene : Scene) (prompt : String) :
    (attemptState ai build scene prompt 1).1 =
      retryPrompt (build (mergedAt ai build scene prompt 0)).stderr prompt := rfl

theorem mergedAt_one (ai : AiService) (build : SceneFiles → BuildResult)
    (scene : Scene) (prompt : String) :
    mergedAt ai build scene prompt 1 =
      objMerge scene.files
        (ai (retryPrompt (build (mergedAt ai build scene prompt 0)).stderr prompt)
          scene.files scene.conversation).files := rfl

theorem promptAt_two (ai : AiService) (build : SceneFiles → BuildResult)
    (scene : Scene) (prompt : String) :
    (attemptState ai build scene prompt 2).1 =
      retryPrompt (build (mergedAt ai build scene prompt 1)).stderr prompt := rfl

theorem mergedAt_two (ai : AiService) (build : SceneFiles → BuildResult)
    (scene : Scene) (prompt : String) :
    mergedAt ai build scene prompt 2 =
      objMerge scene.files
        (ai (retryPrompt (build (mergedAt ai build scene prompt 1)).stderr prompt)
          scene.files scene.conversation).files := rfl

theorem aiPromptHandler_of_loop_ok (ai : AiService) (build : SceneFiles → BuildResult)
    (st : SceneStore) (sceneId prompt : String) (now : Nat) (scene : Scene)
    (r : SceneStore × PromptResponse)
    (htrim : ¬ jsTrim prompt = "") (hst : getScene st sceneId = some scene)
    (hok : aiPromptLoop ai build st sceneId prompt scene now prompt 0 = .ok r) :
    aiPromptHandler ai build st sceneId prompt now = r := by
  simp [aiPromptHandler, htrim, hst, hok]

theorem aiPromptHandler_empty_prompt (ai : AiService) (build : SceneFiles → BuildResult)
    (st : SceneStore) (sceneId prompt : String) (now : Nat)
    (htrim : jsTrim prompt = "") :
    aiPromptHandler ai build st sceneId prompt now =
      (st, { status := 400, explanation := "Prompt is required",
             buildRetries := 0, buildFailed := false, buildError := none }) := by
  simp [aiPromptHandler, htrim]

theorem countRole_append (l1 l2 : List ConversationMessage) (r : Role) :
    countRole (l1 ++ l2) r = countRole l1 r + countRole l2 r := by
  simp [countRole, List.filter_append]

theorem counts_of_append_pair (conv : List ConversationMessage)
    (u a : ConversationMessage) (hu : u.role = .user) (ha : a.role = .assistant) :
    countRole (conv ++ [u, a]) .user = countRole conv .user + 1 ∧
    countRole (conv ++ [u, a]) .assistant = countRole conv .assistant + 1 ∧
    (conv ++ [u, a]).length = conv.length + 2 := by
  refine ⟨?_, ?_, by simp⟩
  · rw [countRole_append]
    simp [countRole, hu, ha]
  · rw [countRole_append]
    simp [countRole, hu, ha]

/-- C4: per orchestrated request at most one user and at most one
assistant entry are appended, whatever the attempt outcomes (failed
attempts append nothing); and in the fail/fail/succeed schedule within
the 2-retry bound exactly one user/assistant pair is appended, the
reported retry count is 2 and `builtFiles` is present. -/
theorem aiPromptHandler_one_entry_pair :
    ∀ (ai : AiService) (build : SceneFiles → BuildResult) (st : SceneStore)
      (sceneId prompt : String) (now : Nat) (scene : Scene),
      getScene st sceneId = some scene →
      (∃ scene',
        getScene (aiPromptHandler ai build st sceneId prompt now).1 sceneId = some scene' ∧
        countRole scene'.conversation .user ≤ countRole scene.conversation .user + 1 ∧
        countRole scene'.conversation .assistant ≤
          countRole scene.conversation .assistant + 1 ∧
        scene'.conversation.length ≤ scene.conversation.length + 2) ∧
      (jsTrim prompt ≠ "" →
        (build (mergedAt ai build scene prompt 0)).success = false →
        (build (mergedAt ai build scene prompt 1)).success = false →
        (build (mergedAt ai build scene prompt 2)).success = true →
        ∃ u a,
          aiPromptHandler ai build st sceneId prompt now =
            (listSet st sceneId
              { scene with
                conversation := scene.conversation ++ [u, a],
                files := mergedAt ai build scene prompt 2,
                builtFiles := some (build (mergedAt ai build scene prompt 2)).builtFiles,
                updatedAt := now },
             { status := 200,
               explanation := (ai (attemptState ai build scene prompt 2).1
                 scene.files scene.conversation).explanation,
               buildRetries := 2, buildFailed := false, buildError := none }) ∧
          u.role = .user ∧ u.content = prompt ∧ u.filesSnapshot = scene.files ∧
          a.role = .assistant) := by
  intro ai build st sceneId prompt now scene hst
  have hst' : listGet st sceneId = some scene := hst
  constructor
  · -- general: at most one pair appended on every path
    by_cases htrim : jsTrim prompt = ""
    · rw [aiPromptHandler_empty_prompt ai build st sceneId prompt now htrim]
      exact ⟨scene, hst, Nat.le_add_right _ _, Nat.le_add_right _ _, Nat.le_add_right _ _⟩
    · by_cases hb0 : (build (objMerge scene.files
          (ai prompt scene.files scene.conversation).files)).success = true
      · have hloop := aiPromptLoop_success ai build st sceneId prompt scene now prompt 0
          (by decide) hst' hb0
        rw [aiPromptHandler_of_loop_ok ai build st sceneId prompt now scene _ htrim hst hloop]
        refine ⟨_, listGet_listSet_self st sceneId _, ?_, ?_, ?_⟩
        · exact le_of_eq (counts_of_append_pair scene.conversation _ _ rfl rfl).1
        · exact le_of_eq (counts_of_append_pair scene.conversation _ _ rfl rfl).2.1
        · exact le_of_eq (counts_of_append_pair scene.conversation _ _ rfl rfl).2.2
      · have hb0' : (build (objMerge scene.files
            (ai prompt scene.files scene.conversation).files)).success = false := by
          rwa [Bool.not_eq_true] at hb0
        have e0 := aiPromptLoop_retry ai build st sceneId prompt scene now prompt 0
          (by decide) hb0'
        by_cases hb1 : (build (objMerge scene.files
            (ai (retryPrompt (build (objMerge scene.files
                (ai prompt scene.files scene.conversation).files)).stderr prompt)
              scene.files scene.conversation).files)).success = true
        · have hloop := aiPromptLoop_success ai build st sceneId prompt scene now _ 1
            (by decide) hst' hb1
          rw [aiPromptHandler_of_loop_ok ai build st sceneId prompt now scene _ htrim hst
            (e0.trans hloop)]
          refine ⟨_, listGet_listSet_self st sceneId _, ?_, ?_, ?_⟩
          · exact le_of_eq (counts_of_append_pair scene.conversation _ _ rfl rfl).1
          · exact le_of_eq (counts_of_append_pair scene.conversation _ _ rfl rfl).2.1
          · exact le_of_eq (counts_of_append_pair scene.conversation _ _ rfl rfl).2.2
        · have hb1' : (build (objMerge scene.files
              (ai (retryPrompt (build (objMerge scene.files
                  (ai prompt scene.files scene.conversation).files)).stderr prompt)
                scene.files scene.conversation).files)).success = false := by
            rwa [Bool.not_eq_true] at hb1
          have e1 := aiPromptLoop_retry ai build st sceneId prompt scene now _ 1
            (by decide) hb1'
          by_cases hb2 : (build (objMerge scene.files
              (ai (retryPrompt (build (objMerge scene.files
                  (ai (retryPrompt (build (objMerge scene.files
                      (ai prompt scene.files scene.conversation).files)).stderr prompt)
                    scene.files scene.conversation).files)).stderr prompt)
                scene.files scene.conversation).files)).success = true
          · have hloop := aiPromptLoop_success ai build st sceneId prompt scene now _ 2
              (by decide) hst' hb2
            rw [aiPromptHandler_of_loop_ok ai build st sceneId prompt now scene _ htrim hst
              (e0.trans (e1.trans hloop))]
            refine ⟨_, listGet_listSet_self st sceneId _, ?_, ?_, ?_⟩
            · exact le_of_eq (counts_of_append_pair scene.conversation _ _ rfl rfl).1
            · exact le_of_eq (counts_of_append_pair scene.conversation _ _ rfl rfl).2.1
            · exact le_of_eq (counts_of_append_pair scene.conversation _ _ rfl rfl).2.2
          · have hb2' : (build (objMerge scene.files
                (ai (retryPrompt (build (objMerge scene.files
                    (ai (retryPrompt (build (objMerge scene.files
                        (ai prompt scene.files scene.conversation).files)).stderr prompt)
                      scene.files scene.conversation).files)).stderr prompt)
                  scene.files scene.conversation).files)).success = false := by
              rwa [Bool.not_eq_true] at hb2
            have hloop := aiPromptLoop_exhausted ai build st sceneId prompt scene now _ 2
              (by decide) (by decide) hst' hb2'
            rw [aiPromptHandler_of_loop_ok ai build st sceneId prompt now scene _ htrim hst
              (e0.trans (e1.trans hloop))]
            refine ⟨_, listGet_listSet_self st sceneId _, ?_, ?_, ?_⟩
            · exact le_of_eq (counts_of_append_pair scene.conversation _ _ rfl rfl).1
            · exact le_of_eq (counts_of_append_pair scene.conversation _ _ rfl rfl).2.1
            · exact le_of_eq (counts_of_append_pair scene.conversation _ _ rfl rfl).2.2
  · -- scenario B: fail, fail, succeed
    intro htrim hf0 hf1 hs2
    rw [mergedAt_zero] at hf0
    rw [mergedAt_one, mergedAt_zero] at hf1
    rw [mergedAt_two, mergedAt_one, mergedAt_zero] at hs2
    have e0 := aiPromptLoop_retry ai build st sceneId prompt scene now prompt 0
      (by decide) hf0
    have e1 := aiPromptLoop_retry ai build st sceneId prompt scene now _ 1
      (by decide) hf1
    have hloop := aiPromptLoop_success ai build st sceneId prompt scene now _ 2
      (by decide) hst' hs2
    rw [aiPromptHandler_of_loop_ok ai build st sceneId prompt now scene _ htrim hst
      (e0.trans (e1.trans hloop))]
    refine ⟨{ id := "msg_" ++ toString now, role := .user, content := prompt,
              timestamp := now, filesSnapshot := scene.files },
            { id := "msg_" ++ toString (now + 1), role := .assistant,
              content := (ai (attemptState ai build scene prompt 2).1
                scene.files scene.conversation).explanation,
              timestamp := now,
              filesSnapshot := mergedAt ai build scene prompt 2 },
            ?_, rfl, rfl, rfl, rfl⟩
    rw [mergedAt_two, mergedAt_one, mergedAt_zero, promptAt_two, mergedAt_one, mergedAt_zero]

/-- Witness collaborator: echoes the prompt it received into a marker
file, so different retry prompts produce different merged file sets. -/
def aiW : AiService :=
  fun p _ _ => { files := [("marker.ts", p)], explanation := "done" }

/-- The retry prompt the handler builds after the first failed attempt
of `aiW`/`buildW` on the original prompt `go`. -/
def p2W : String := retryPrompt "err:go" "go"

/-- The retry prompt after the second failed attempt. -/
def p3W : String := retryPrompt ("err:" ++ p2W) "go"

/-- Witness build oracle: succeeds exactly when the marker carries the
third attempt's prompt, failing with a marker-dependent diagnostic
otherwise — so attempts 1 and 2 fail and attempt 3 succeeds. -/
def buildW : SceneFiles → BuildResult := fun m =>
  match listGet m "marker.ts" with
  | some mv =>
    if mv = p3W then
      { success := true, builtFiles := [("bin/index.js", "js")], stdout := "", stderr := "" }
    else
      { success := false, builtFiles := [], stdout := "", stderr := "err:" ++ mv }
  | none => { success := false, builtFiles := [], stdout := "", stderr := "err:none" }

set_option maxRecDepth 4000 in
/-- C4 witness: the scenario part of the theorem applied to `aiW` and
`buildW` on the sample store — builds fail on attempts 1 and 2 and
succeed on attempt 3. -/
theorem aiPromptHandler_one_entry_pair_witness :
    ∃ u a,
      aiPromptHandler aiW buildW exStore "s1" "go" 10 =
        (listSet exStore "s1"
          { exScene with
            conversation := exScene.conversation ++ [u, a],
            files := mergedAt aiW buildW exScene "go" 2,
            builtFiles := some (buildW (mergedAt aiW buildW exScene "go" 2)).builtFiles,
            updatedAt := 10 },
         { status := 200,
           explanation := (aiW (attemptState aiW buildW exScene "go" 2).1
             exScene.files exScene.conversation).explanation,
           buildRetries := 2, buildFailed := false, buildError := none }) ∧
      u.role = .user ∧ u.content = "go" ∧ u.filesSnapshot = exScene.files ∧
      a.role = .assistant :=
  (aiPromptHandler_one_entry_pair aiW buildW exStore "s1" "go" 10 exScene rfl).2
    (by decide) (by decide) (by decide) (by decide)

/-- C5: when the build fails on all three attempts (2-retry bound), the
handler still appends exactly one user entry (content = the original
prompt, snapshot = the files before the modification) and one
assistant entry whose content carries the explicit build-failure
warning, still commits the merged files as the scene's current files,
leaves `builtFiles` absent, and returns the diagnostic text, the retry
count 2 and `buildFailed = true`. -/
theorem aiPromptHandler_commit_with_build_error :
    ∀ (ai : AiService) (build : SceneFiles → BuildResult) (st : SceneStore)
      (sceneId prompt : String) (now : Nat) (scene : Scene),
      getScene st sceneId = some scene →
      jsTrim prompt ≠ "" →
      (build (mergedAt ai build scene prompt 0)).success = false →
      (build (mergedAt ai build scene prompt 1)).success = false →
      (build (mergedAt ai build scene prompt 2)).success = false →
      aiPromptHandler ai build st sceneId prompt now =
        (listSet st sceneId
          { scene with
            conversation := scene.conversation ++
              [{ id := "msg_" ++ toString now, role := .user, content := prompt,
                 timestamp := now, filesSnapshot := scene.files },
               { id := "msg_" ++ toString (now + 1), role := .assistant,
                 content := (ai (attemptState ai build scene prompt 2).1
                   scene.files scene.conversation).explanation ++ assistantBuildWarning,
                 timestamp := now,
                 filesSnapshot := mergedAt ai build scene prompt 2 }],
            files := mergedAt ai build scene prompt 2,
            builtFiles := none,
            updatedAt := now },
         { status := 200,
           explanation := (ai (attemptState ai build scene prompt 2).1
             scene.files scene.conversation).explanation ++ responseBuildWarning 2,
           buildRetries := 2, buildFailed := true,
           buildError := some (build (mergedAt ai build scene prompt 2)).stderr }) := by
  intro ai build st sceneId prompt now scene hst htrim hf0 hf1 hf2
  have hst' : listGet st sceneId = some scene := hst
  rw [mergedAt_zero] at hf0
  rw [mergedAt_one, mergedAt_zero] at hf1
  rw [mergedAt_two, mergedAt_one, mergedAt_zero] at hf2
  have e0 := aiPromptLoop_retry ai build st sceneId prompt scene now prompt 0
    (by decide) hf0
  have e1 := aiPromptLoop_retry ai build st sceneId prompt scene now _ 1
    (by decide) hf1
  have hloop := aiPromptLoop_exhausted ai build st sceneId prompt scene now _ 2
    (by decide) (by decide) hst' hf2
  rw [aiPromptHandler_of_loop_ok ai build st sceneId prompt now scene _ htrim hst
    (e0.trans (e1.trans hloop))]
  rw [mergedAt_two, mergedAt_one, mergedAt_zero, promptAt_two, mergedAt_one, mergedAt_zero]

/-- Witness collaborator for the all-attempts-fail scenario. -/
def aiFailW : AiService := fun _ _ _ => { files := [], explanation := "E" }

/-- Witness build oracle that always fails with a fixed diagnostic. -/
def buildFailW : SceneFiles → BuildResult :=
  fun _ => { success := false, builtFiles := [], stdout := "", stderr := "type error" }

/-- C5 witness: the theorem applied to an always-failing build on the
sample store. -/
theorem aiPromptHandler_commit_with_build_error_witness :
    aiPromptHandler aiFailW buildFailW exStore "s1" "go" 10 =
      (listSet exStore "s1"
        { exScene with
          conversation := exScene.conversation ++
            [{ id := "msg_" ++ toString 10, role := .user, content := "go",
               timestamp := 10, filesSnapshot := exScene.files },
             { id := "msg_" ++ toString (10 + 1), role := .assistant,
               content := (aiFailW (attemptState aiFailW buildFailW exScene "go" 2).1
                 exScene.files exScene.conversation).explanation ++ assistantBuildWarning,
               timestamp := 10,
               filesSnapshot := mergedAt aiFailW buildFailW exScene "go" 2 }],
          files := mergedAt aiFailW buildFailW exScene "go" 2,
          builtFiles := none,
          updatedAt := 10 },
       { status := 200,
         explanation := (aiFailW (attemptState aiFailW buildFailW exScene "go" 2).1
           exScene.files exScene.conversation).explanation ++ responseBuildWarning 2,
         buildRetries := 2, buildFailed := true,
         buildError := some (buildFailW (mergedAt aiFailW buildFailW exScene "go" 2)).stderr }) :=
  aiPromptHandler_commit_with_build_error aiFailW buildFailW exStore "s1" "go" 10 exScene
    rfl (by decide) rfl rfl rfl

end SceneLab
